import Mathlib

/-!
Shallow embedding of `src/homework.py` (a Telegram homework-status polling
bot) and verification of its specification claims.

Modelling conventions:
* JSON values parsed from HTTP bodies are modelled by the inductive `JValue`;
  Python `dict`s become association lists (keys unique, first match wins),
  numeric JSON values are modelled as integers (no claim involves floats).
* Python exceptions that the script raises or catches are modelled by
  `PyError` (constructor = exception class, field = the message argument).
* The external world of one `requests.get` call is modelled by
  `FetchOutcome`: either an HTTP response (status code plus parsed body) or
  a raised `requests.exceptions.RequestException` (connection-level failure;
  a malformed, non-parseable body also lands here because
  `requests.JSONDecodeError` is a `RequestException` subclass).  The
  `except HTTPError` branch of `get_api_answer` is unreachable with
  `requests.get` (`HTTPError` is only raised by `raise_for_status`, never
  called here) and has no separate constructor.
* Telegram delivery is modelled by a boolean `delivery_fails` flag: `true`
  means `bot.send_message` raises (the exception the script catches and
  logs), `false` means delivery succeeds.
-/

namespace HomeworkBot

/-- A parsed JSON value, the result of `response.json()` in the script.
Objects are association lists with string keys. -/
inductive JValue where
  | jnull : JValue
  | jbool (b : Bool) : JValue
  | jnum (n : Int) : JValue
  | jstr (s : String) : JValue
  | jarr (elems : List JValue) : JValue
  | jobj (fields : List (String × JValue)) : JValue

/-- Python truthiness of a JSON value: `None`, `False`, `0`, `""`, `[]` and
an empty dict are falsy, everything else is truthy.  Used by the script's
`if response:`, `if homeworks:` and `if message:` tests. -/
def JValue.truthy : JValue → Bool
  | .jnull => false
  | .jbool b => b
  | .jnum n => n != 0
  | .jstr s => !s.isEmpty
  | .jarr elems => !elems.isEmpty
  | .jobj fields => !fields.isEmpty

/-- Association-list lookup, modelling Python `d[k]` / `k in d` / `d.get(k)`
on a dict (keys are unique in a Python dict, so first match wins). -/
def alist_get {β : Type} : List (String × β) → String → Option β
  | [], _ => none
  | (k, v) :: rest, key => if k = key then some v else alist_get rest key

mutual
/-- Python `repr` of a JSON value, used by `str` on containers.  String
escaping inside `repr` of a string is not reproduced (no claim depends on
it); quoting and bracketing are. -/
def pyRepr : JValue → String
  | .jnull => "None"
  | .jbool true => "True"
  | .jbool false => "False"
  | .jnum n => toString n
  | .jstr s => "\x27" ++ s ++ "\x27"
  | .jarr elems => "[" ++ reprElems elems ++ "]"
  | .jobj fields => "\x7b" ++ reprFields fields ++ "\x7d"

/-- Comma-separated `repr`s of list elements. -/
def reprElems : List JValue → String
  | [] => ""
  | [v] => pyRepr v
  | v :: rest => pyRepr v ++ ", " ++ reprElems rest

/-- Comma-separated `repr`s of dict entries. -/
def reprFields : List (String × JValue) → String
  | [] => ""
  | [(k, v)] => "\x27" ++ k ++ "\x27: " ++ pyRepr v
  | (k, v) :: rest => "\x27" ++ k ++ "\x27: " ++ pyRepr v ++ ", " ++ reprFields rest
end

/-- Python `str` of a JSON value, as used by `'{}'.format(...)` and
f-strings in the script. -/
def pyStr : JValue → String
  | .jnull => "None"
  | .jbool true => "True"
  | .jbool false => "False"
  | .jnum n => toString n
  | .jstr s => s
  | .jarr elems => pyRepr (.jarr elems)
  | .jobj fields => pyRepr (.jobj fields)

/-- Python `str` of an `Optional` JSON value (`dict.get` returns `None` for
a missing key, and `str(None) = "None"`). -/
def pyStrOpt : Option JValue → String
  | none => "None"
  | some v => pyStr v

/-- The exceptions the script raises or formats: constructor = Python
exception class, argument = the message the script passes. -/
inductive PyError where
  | typeError (msg : String) : PyError
  | keyError (msg : String) : PyError
  | valueError (msg : String) : PyError
deriving DecidableEq

/-- Python `str(e)` for a caught exception `e`, as interpolated by
`f'Сбой в работе программы: {error}'` in `main`.  `str` of a `KeyError`
is the `repr` of its argument, hence the quotes. -/
def PyError.text : PyError → String
  | .typeError msg => msg
  | .keyError msg => "\x27" ++ msg ++ "\x27"
  | .valueError msg => msg

/-- `RETRY_PERIOD = 600`, the fixed sleep between iterations (seconds). -/
def RETRY_PERIOD : Nat := 600

/-- `TIME_POINT = 1705755600`, the module-level constant `main` copies into
`timestamp` before the loop. -/
def TIME_POINT : Int := 1705755600

/-- `HOMEWORK_VERDICTS`: the three known review statuses and their fixed
verdict sentences. -/
def HOMEWORK_VERDICTS : List (String × String) :=
  [("approved", "Работа проверена: ревьюеру всё понравилось. Ура!"),
   ("reviewing", "Работа взята на проверку ревьюером."),
   ("rejected", "Работа проверена: у ревьюера есть замечания.")]

/-- The list `missing_tokens` accumulated inside `check_tokens`: the name of
each credential whose environment variable is unset (`None`), in source
order. -/
def missing_tokens (practicum_token telegram_token telegram_chat_id : Option String) :
    List String :=
  (if practicum_token.isNone then ["PRACTICUM_TOKEN"] else [])
    ++ (if telegram_token.isNone then ["TELEGRAM_TOKEN"] else [])
    ++ (if telegram_chat_id.isNone then ["TELEGRAM_CHAT_ID"] else [])

/-- `check_tokens()`: raises `ValueError` naming the missing environment
variables when any credential is absent, returns `True` otherwise.  The
`Except.error` carries the exception message. -/
def check_tokens (practicum_token telegram_token telegram_chat_id : Option String) :
    Except String Bool :=
  let missing := missing_tokens practicum_token telegram_token telegram_chat_id
  if missing.isEmpty then
    Except.ok true
  else
    Except.error ("Отсутствуют переменные окружения: " ++ String.intercalate ", " missing)

/-- The state `send_message` reads and writes: the global
`LAST_ERROR_MESSAGE` and (for observation) the list of messages actually
delivered to the chat, in order. -/
structure SendState where
  lastErrorMessage : Option String
  sent : List String
deriving DecidableEq

/-- `send_message(bot, message)`.  `delivery_fails` models
`bot.send_message` raising (the script catches the exception and only
logs).  Faithful to the source: the local `error` flag is initialised to
`False` and is still `False` both at the duplicate check and at the
`LAST_ERROR_MESSAGE` assignment, so neither branch can ever fire; a
delivery failure is caught, sets the local flag, and returns. -/
def send_message (delivery_fails : Bool) (st : SendState) (message : String) : SendState :=
  let error := false
  if error && (st.lastErrorMessage == some message) then
    st
  else if delivery_fails then
    st
  else
    let st1 : SendState := { st with sent := st.sent ++ [message] }
    if error then { st1 with lastErrorMessage := some message } else st1

/-- The outcome of the single `requests.get` call inside
`get_api_answer`: a response (status code and parsed body), or a raised
`RequestException` (connection-level failure, or a non-parseable body via
`requests.JSONDecodeError`). -/
inductive FetchOutcome where
  | response (status_code : Nat) (body : JValue) : FetchOutcome
  | requestException (msg : String) : FetchOutcome

/-- `get_api_answer(timestamp)`: on a non-200 status raises `ValueError`
with the 4xx / 5xx / other classification message (the `ValueError` is not
a `RequestException`, so it escapes the function's own handlers); on 200
returns the parsed body; on a `RequestException` the function's own
`except` clause catches it, logs, and falls off the end returning `None`. -/
def get_api_answer : FetchOutcome → Except PyError (Option JValue)
  | .response status_code body =>
    if status_code ≠ 200 then
      if 400 ≤ status_code ∧ status_code < 500 then
        Except.error (.valueError "Ошибка на стороне клиента.")
      else if 500 ≤ status_code ∧ status_code < 600 then
        Except.error (.valueError "Ошибка сервера.")
      else
        Except.error (.valueError "Неизвестный ответ.")
    else
      Except.ok (some body)
  | .requestException _ => Except.ok none

/-- `check_response(response)`: `TypeError` when the payload is not a dict,
`KeyError` when the dict lacks `homeworks`, `TypeError` when the
`homeworks` value is not a list, otherwise the full `homeworks` list. -/
def check_response (response : JValue) : Except PyError (List JValue) :=
  match response with
  | .jobj fields =>
    match alist_get fields "homeworks" with
    | none => Except.error (.keyError "Ответ API не содержит ключ \"homeworks\".")
    | some (.jarr homeworks) => Except.ok homeworks
    | some _ => Except.error (.typeError "Данные под ключом \"homeworks\" не являются списком.")
  | _ => Except.error (.typeError "Ответ API не является словарем.")

/-- `parse_status(homework)` on a dict record (the fields list):
`KeyError` when `homework_name` is absent.  Otherwise the membership test
`status not in HOMEWORK_VERDICTS` runs: it hashes the status first, so an
unhashable status (a JSON array or object) raises
`TypeError("unhashable type: ...")` right there; a hashable status that is
not a key of the verdict table (`None`, booleans, numbers, unknown
strings) reaches the `ValueError` naming `str(homework.get('status'))`;
a known status yields the fixed message embedding `str(homework_name)`
and the verdict sentence. -/
def parse_status (homework : List (String × JValue)) : Except PyError String :=
  match alist_get homework "homework_name" with
  | none => Except.error (.keyError "В ответе API отсутствует ключ \"homework_name\".")
  | some homework_name =>
    match alist_get homework "status" with
    | some (.jstr s) =>
      match alist_get HOMEWORK_VERDICTS s with
      | some verdict =>
        Except.ok ("Изменился статус проверки работы \"" ++ pyStr homework_name
          ++ "\". " ++ verdict)
      | none =>
        Except.error (.valueError ("Неизвестный статус домашней работы: " ++ s))
    | some (.jarr _) => Except.error (.typeError "unhashable type: \x27list\x27")
    | some (.jobj _) => Except.error (.typeError "unhashable type: \x27dict\x27")
    | st => Except.error (.valueError ("Неизвестный статус домашней работы: " ++ pyStrOpt st))

/-- `parse_status` on an arbitrary element of the `homeworks` list.  The
non-dict cases reproduce what Python raises at `'homework_name' not in
homework` (substring test on a string, membership test on a list,
`TypeError` on non-iterables) or at the subsequent subscript. -/
def parse_status_value : JValue → Except PyError String
  | .jobj fields => parse_status fields
  | .jstr s =>
    if (s.splitOn "homework_name").length > 1 then
      Except.error (.typeError "string indices must be integers")
    else
      Except.error (.keyError "В ответе API отсутствует ключ \"homework_name\".")
  | .jarr elems =>
    if elems.any (fun v => match v with | .jstr t => t == "homework_name" | _ => false) then
      Except.error (.typeError "list indices must be integers or slices, not str")
    else
      Except.error (.keyError "В ответе API отсутствует ключ \"homework_name\".")
  | .jnull => Except.error (.typeError "argument of type \x27NoneType\x27 is not iterable")
  | .jbool _ => Except.error (.typeError "argument of type \x27bool\x27 is not iterable")
  | .jnum _ => Except.error (.typeError "argument of type \x27int\x27 is not iterable")

/-- `response.get('current_date', timestamp)`.  After `check_response`
succeeds the response is always a dict, so the non-dict arm (where Python
`.get` would raise `AttributeError`) is unreachable in `main` and defaults
to the old timestamp. -/
def JValue.dictGet (v : JValue) (key : String) (default : JValue) : JValue :=
  match v with
  | .jobj fields => (alist_get fields key).getD default
  | _ => default

/-- The per-iteration state of `main`: the поll cursor `timestamp` (a
`JValue`, since `current_date` is stored back unconverted) and the
messaging state. -/
structure LoopState where
  timestamp : JValue
  sendState : SendState

/-- The `for homework in homeworks:` loop body of `main`: translate each
record and deliver non-empty messages; the first translation error aborts
the loop, keeping the deliveries already made. -/
def process_homeworks (delivery_fails : Bool) :
    SendState → List JValue → Except (SendState × PyError) SendState
  | st, [] => Except.ok st
  | st, hw :: rest =>
    match parse_status_value hw with
    | .error e => Except.error (st, e)
    | .ok message =>
      let st1 := if message.isEmpty then st else send_message delivery_fails st message
      process_homeworks delivery_fails st1 rest

/-- The `try:` block of one iteration of `main`'s `while True:` loop:
poll, skip everything when the result is falsy, otherwise validate,
translate-and-deliver, and update the timestamp from `current_date`.
`Except.error` carries the exception reaching the iteration boundary
together with the deliveries already made. -/
def try_body (outcome : FetchOutcome) (delivery_fails : Bool) (st : LoopState) :
    Except (SendState × PyError) LoopState :=
  match get_api_answer outcome with
  | .error e => Except.error (st.sendState, e)
  | .ok response =>
    match response with
    | none => Except.ok st
    | some body =>
      if body.truthy then
        match check_response body with
        | .error e => Except.error (st.sendState, e)
        | .ok homeworks =>
          match process_homeworks delivery_fails st.sendState homeworks with
          | .error (sendSt, e) => Except.error (sendSt, e)
          | .ok sendSt =>
            Except.ok { timestamp := body.dictGet "current_date" st.timestamp,
                        sendState := sendSt }
      else
        Except.ok st

/-- One full iteration of `main`'s loop: the `try:` block, with the
`except Exception` handler formatting `f'Сбой в работе программы: {error}'`
and delivering it through `send_message`; both branches then sleep and
continue, so the iteration is a total function — no error terminates the
loop. -/
def iteration (outcome : FetchOutcome) (delivery_fails : Bool) (st : LoopState) : LoopState :=
  match try_body outcome delivery_fails st with
  | .ok st1 => st1
  | .error (sendSt, e) =>
    { timestamp := st.timestamp,
      sendState := send_message delivery_fails sendSt ("Сбой в работе программы: " ++ e.text) }

/-- The state `main` sets up before entering the loop:
`timestamp = TIME_POINT`, no message ever sent, `LAST_ERROR_MESSAGE = None`. -/
def initial_state : LoopState :=
  { timestamp := .jnum TIME_POINT, sendState := { lastErrorMessage := none, sent := [] } }

/-- `main()` run against a finite schedule of fetch outcomes:
`check_tokens` first (its `ValueError` propagates uncaught, ending the
process with a non-zero exit code before the loop begins), then one
`iteration` per outcome. -/
def main_run (practicum_token telegram_token telegram_chat_id : Option String)
    (outcomes : List FetchOutcome) (delivery_fails : Bool) : Except String LoopState :=
  match check_tokens practicum_token telegram_token telegram_chat_id with
  | .error msg => Except.error msg
  | .ok _ => Except.ok (outcomes.foldl (fun st o => iteration o delivery_fails st) initial_state)

/-- Modelled from the spec ("Initialized to current time at startup"): the
initialisation policy claim C9 asserts, for refinement comparison with
`initial_state` — the cursor would be the wall clock read at process
start. -/
def spec_initial_cursor (startClock : Int) : JValue := .jnum startClock

/-! Theorems for the specification claims. -/

/-- C2 (counterexample): a connection-level failure does not make
`get_api_answer` fail with any classification — the function catches the
`RequestException` itself and returns `None`. -/
theorem get_api_answer_network_returns_none :
    get_api_answer (.requestException "Connection reset by peer") = Except.ok none := rfl

/-- C2 (amended): on HTTP 200 `get_api_answer` returns the parsed body
verbatim; a 4xx status fails with the client-error classification, a 5xx
status with the server-error classification, and any other non-200 status
with the unexpected-status classification; a connection-level failure is
caught inside the poller, which logs it and returns `None` instead of
failing. -/
theorem get_api_answer_classification :
    ∀ (status_code : Nat) (body : JValue),
      (status_code = 200 →
        get_api_answer (.response status_code body) = Except.ok (some body))
      ∧ (400 ≤ status_code → status_code < 500 →
        get_api_answer (.response status_code body)
          = Except.error (.valueError "Ошибка на стороне клиента."))
      ∧ (500 ≤ status_code → status_code < 600 →
        get_api_answer (.response status_code body)
          = Except.error (.valueError "Ошибка сервера."))
      ∧ (status_code ≠ 200 → ¬(400 ≤ status_code ∧ status_code < 500) →
          ¬(500 ≤ status_code ∧ status_code < 600) →
        get_api_answer (.response status_code body)
          = Except.error (.valueError "Неизвестный ответ."))
      ∧ (∀ msg, get_api_answer (.requestException msg) = Except.ok none) := by
  intro status_code body
  refine ⟨?_, ?_, ?_, ?_, fun _ => rfl⟩
  · intro h
    subst h
    rfl
  · intro h1 h2
    show (if status_code ≠ 200 then _ else _) = _
    rw [if_pos (by omega : status_code ≠ 200), if_pos ⟨h1, h2⟩]
  · intro h1 h2
    show (if status_code ≠ 200 then _ else _) = _
    rw [if_pos (by omega : status_code ≠ 200), if_neg (by omega), if_pos ⟨h1, h2⟩]
  · intro h1 h2 h3
    show (if status_code ≠ 200 then _ else _) = _
    rw [if_pos h1, if_neg h2, if_neg h3]

/-- C2 witness: the classification evaluated at statuses 404, 503, 301
and 200. -/
theorem get_api_answer_classification_w :
    get_api_answer (.response 404 .jnull)
      = Except.error (.valueError "Ошибка на стороне клиента.")
    ∧ get_api_answer (.response 503 .jnull)
      = Except.error (.valueError "Ошибка сервера.")
    ∧ get_api_answer (.response 301 .jnull)
      = Except.error (.valueError "Неизвестный ответ.")
    ∧ get_api_answer (.response 200 (.jobj [])) = Except.ok (some (.jobj [])) :=
  ⟨(get_api_answer_classification 404 .jnull).2.1 (by omega) (by omega),
   (get_api_answer_classification 503 .jnull).2.2.1 (by omega) (by omega),
   (get_api_answer_classification 301 .jnull).2.2.2.1 (by omega) (by omega) (by omega),
   (get_api_answer_classification 200 (.jobj [])).1 rfl⟩

/-- C4: for every record carrying a `homework_name` and a status among the
known verdict keys, `parse_status` returns the fixed sentence for that
status with the homework name embedded verbatim; in particular the
approved record for "hw1" yields exactly the documented message. -/
theorem parse_status_known_statuses :
    (∀ (fields : List (String × JValue)) (name s verdict : String),
      alist_get fields "homework_name" = some (.jstr name) →
      alist_get fields "status" = some (.jstr s) →
      alist_get HOMEWORK_VERDICTS s = some verdict →
      parse_status fields
        = Except.ok ("Изменился статус проверки работы \"" ++ name ++ "\". " ++ verdict))
    ∧ parse_status [("homework_name", .jstr "hw1"), ("status", .jstr "approved")]
        = Except.ok "Изменился статус проверки работы \"hw1\". Работа проверена: ревьюеру всё понравилось. Ура!" := by
  constructor
  · intro fields name s verdict h1 h2 h3
    simp [parse_status, h1, h2, h3, pyStr]
  · rfl

/-- C4 witness: the rejected record for "hw2" evaluated through the
theorem. -/
theorem parse_status_known_statuses_w :
    parse_status [("homework_name", .jstr "hw2"), ("status", .jstr "rejected")]
      = Except.ok ("Изменился статус проверки работы \"" ++ "hw2" ++ "\". "
          ++ "Работа проверена: у ревьюера есть замечания.") :=
  parse_status_known_statuses.1 _ "hw2" "rejected" _ rfl rfl rfl

/-- C5: `check_response` fails with the not-a-dict `TypeError` on any
payload that is not a keyed mapping, with the `KeyError` when the mapping
lacks `homeworks`, with the not-a-list `TypeError` when the `homeworks`
value is not a sequence, and otherwise returns the entire `homeworks`
sequence. -/
theorem check_response_rejects_bad_shapes :
    ∀ (payload : JValue),
      ((∀ fields, payload ≠ .jobj fields) →
        check_response payload = Except.error (.typeError "Ответ API не является словарем."))
      ∧ (∀ fields, payload = .jobj fields →
          (alist_get fields "homeworks" = none →
            check_response payload
              = Except.error (.keyError "Ответ API не содержит ключ \"homeworks\"."))
          ∧ (∀ v, alist_get fields "homeworks" = some v →
              ((∀ xs, v ≠ .jarr xs) →
                check_response payload
                  = Except.error (.typeError "Данные под ключом \"homeworks\" не являются списком."))
              ∧ (∀ xs, v = .jarr xs → check_response payload = Except.ok xs))) := by
  intro payload
  constructor
  · intro h
    cases payload with
    | jobj fields => exact absurd rfl (h fields)
    | jnull => rfl
    | jbool b => rfl
    | jnum n => rfl
    | jstr s => rfl
    | jarr elems => rfl
  · intro fields hEq
    subst hEq
    constructor
    · intro hNone
      simp [check_response, hNone]
    · intro v hSome
      constructor
      · intro hNot
        cases v with
        | jarr xs => exact absurd rfl (hNot xs)
        | jnull => simp [check_response, hSome]
        | jbool b => simp [check_response, hSome]
        | jnum n => simp [check_response, hSome]
        | jstr s => simp [check_response, hSome]
        | jobj fs => simp [check_response, hSome]
      · intro xs hv
        subst hv
        simp [check_response, hSome]

/-- C5 witness: the three failure shapes and the success shape evaluated
through the theorem. -/
theorem check_response_rejects_bad_shapes_w :
    check_response (.jarr []) = Except.error (.typeError "Ответ API не является словарем.")
    ∧ check_response (.jobj [("no_homeworks_key", .jbool true)])
      = Except.error (.keyError "Ответ API не содержит ключ \"homeworks\".")
    ∧ check_response (.jobj [("homeworks", .jnum 3)])
      = Except.error (.typeError "Данные под ключом \"homeworks\" не являются списком.")
    ∧ check_response (.jobj [("homeworks", .jarr [.jnull])]) = Except.ok [JValue.jnull] :=
  ⟨(check_response_rejects_bad_shapes (.jarr [])).1 (fun _ h => JValue.noConfusion h),
   ((check_response_rejects_bad_shapes (.jobj [("no_homeworks_key", .jbool true)])).2 _ rfl).1 rfl,
   (((check_response_rejects_bad_shapes (.jobj [("homeworks", .jnum 3)])).2 _ rfl).2 _ rfl).1
     (fun _ h => JValue.noConfusion h),
   (((check_response_rejects_bad_shapes (.jobj [("homeworks", .jarr [.jnull])])).2 _ rfl).2
     _ rfl).2 _ rfl⟩

/-- C7 (counterexample): a record lacking both `homework_name` and
`status` fails with the missing-field `KeyError`, not with the
unknown-status `ValueError` that the claim's second universal demands for
every record whose status is absent. -/
theorem missing_name_and_status_gives_key_error :
    parse_status []
      = Except.error (.keyError "В ответе API отсутствует ключ \"homework_name\".")
    ∧ parse_status []
      ≠ Except.error (.valueError "Неизвестный статус домашней работы: None") := by
  constructor
  · rfl
  · intro h
    simp [parse_status, alist_get] at h

/-- C7 (amended): a record lacking `homework_name` fails with the
missing-field `KeyError` regardless of its status; a record that does
carry `homework_name` and whose status is absent, or present as a
hashable value outside the known verdict keys (`None`, a boolean, a
number, or an unknown string), fails with the unknown-status `ValueError`
naming that status; a record whose status is an unhashable JSON array or
object fails with the `TypeError` raised by the membership test itself. -/
theorem parse_status_error_cases :
    ∀ (fields : List (String × JValue)),
      (alist_get fields "homework_name" = none →
        parse_status fields
          = Except.error (.keyError "В ответе API отсутствует ключ \"homework_name\"."))
      ∧ (∀ name, alist_get fields "homework_name" = some name →
          (alist_get fields "status" = none →
            parse_status fields
              = Except.error (.valueError "Неизвестный статус домашней работы: None"))
          ∧ (∀ v, alist_get fields "status" = some v →
              ((∀ s, v = .jstr s → alist_get HOMEWORK_VERDICTS s = none) →
               (∀ elems, v ≠ .jarr elems) →
               (∀ fs, v ≠ .jobj fs) →
                parse_status fields
                  = Except.error
                      (.valueError ("Неизвестный статус домашней работы: " ++ pyStr v)))
              ∧ (∀ elems, v = .jarr elems →
                  parse_status fields
                    = Except.error (.typeError "unhashable type: \x27list\x27"))
              ∧ (∀ fs, v = .jobj fs →
                  parse_status fields
                    = Except.error (.typeError "unhashable type: \x27dict\x27")))) := by
  intro fields
  refine ⟨?_, ?_⟩
  · intro h
    simp [parse_status, h]
  · intro name h1
    refine ⟨?_, ?_⟩
    · intro h2
      simp [parse_status, h1, h2, pyStrOpt]
    · intro v h2
      refine ⟨?_, ?_, ?_⟩
      · intro h3 harr hobj
        cases v with
        | jstr s =>
          have hs := h3 s rfl
          simp [parse_status, h1, h2, hs, pyStr]
        | jnull => simp [parse_status, h1, h2, pyStrOpt, pyStr]
        | jbool b => simp [parse_status, h1, h2, pyStrOpt, pyStr]
        | jnum n => simp [parse_status, h1, h2, pyStrOpt, pyStr]
        | jarr elems => exact absurd rfl (harr elems)
        | jobj fs => exact absurd rfl (hobj fs)
      · intro elems hv
        subst hv
        simp [parse_status, h1, h2]
      · intro fs hv
        subst hv
        simp [parse_status, h1, h2]

/-- C7 witness: a record with a name but an unknown string status, and a
record whose status is a JSON array, both evaluated through the theorem. -/
theorem parse_status_error_cases_w :
    parse_status [("homework_name", .jstr "hw"), ("status", .jstr "weird")]
      = Except.error
          (.valueError ("Неизвестный статус домашней работы: " ++ pyStr (.jstr "weird")))
    ∧ parse_status [("homework_name", .jstr "hw"), ("status", .jarr [])]
      = Except.error (.typeError "unhashable type: \x27list\x27") :=
  ⟨(((parse_status_error_cases [("homework_name", .jstr "hw"), ("status", .jstr "weird")]).2
        (.jstr "hw") rfl).2 (.jstr "weird") rfl).1
      (fun s hs => by cases hs; rfl)
      (fun _ h => JValue.noConfusion h)
      (fun _ h => JValue.noConfusion h),
   ((((parse_status_error_cases [("homework_name", .jstr "hw"), ("status", .jarr [])]).2
        (.jstr "hw") rfl).2 (.jarr []) rfl).2).1 [] rfl⟩

/-- C1 (counterexample): a connection-level poll failure is an error
arising inside the iteration, yet the iteration delivers no failure
message at all and changes nothing — `get_api_answer` swallows the
`RequestException` before it can reach the iteration boundary. -/
theorem network_poll_failure_sends_no_message :
    iteration (.requestException "Connection timed out") false initial_state
      = initial_state := rfl

/-- C1 (amended): every error that reaches the iteration boundary — the
poller's HTTP status-classification errors, validation errors and
translation errors — is caught there, formatted as
`Сбой в работе программы: <error>`, handed to `send_message`, and the loop
continues with the cursor unchanged (`iteration` is a total function, so
no such error terminates the loop); a connection-level poll failure,
however, is caught inside `get_api_answer` and only logged, so the
iteration is a no-op for it and no message passes through the gate. -/
theorem iteration_boundary_errors_reported :
    ∀ (outcome : FetchOutcome) (delivery_fails : Bool) (st : LoopState),
      (∀ sendSt e, try_body outcome delivery_fails st = Except.error (sendSt, e) →
        iteration outcome delivery_fails st
          = { timestamp := st.timestamp,
              sendState := send_message delivery_fails sendSt
                ("Сбой в работе программы: " ++ e.text) })
      ∧ (∀ msg, iteration (.requestException msg) delivery_fails st = st) := by
  intro outcome d st
  constructor
  · intro sendSt e h
    simp [iteration, h]
  · intro msg
    rfl

/-- C1 witness: an HTTP 503 iteration evaluated through the theorem — the
server-error classification is formatted and delivered. -/
theorem iteration_boundary_errors_reported_w :
    iteration (.response 503 (.jobj [])) false initial_state
      = { timestamp := initial_state.timestamp,
          sendState := send_message false initial_state.sendState
            ("Сбой в работе программы: " ++ (PyError.valueError "Ошибка сервера.").text) } :=
  (iteration_boundary_errors_reported (.response 503 (.jobj [])) false initial_state).1
    initial_state.sendState (.valueError "Ошибка сервера.") rfl

/-- C3 (code bug): two consecutive iterations that derive the identical
failure message (two HTTP 503 responses) deliver it twice, and
`LAST_ERROR_MESSAGE` is still `None` afterwards: the suppression branch of
`send_message` is dead, because the local `error` flag it tests is always
`False` and the baseline is never recorded. -/
theorem duplicate_failure_message_not_suppressed :
    (iteration (.response 503 (.jobj [])) false
        (iteration (.response 503 (.jobj [])) false initial_state)).sendState.sent
      = ["Сбой в работе программы: Ошибка сервера.",
         "Сбой в работе программы: Ошибка сервера."]
    ∧ (iteration (.response 503 (.jobj [])) false
        (iteration (.response 503 (.jobj [])) false initial_state)).sendState.lastErrorMessage
      = none := ⟨rfl, rfl⟩

/-- Reduction of `try_body` on an HTTP 200 outcome: the poll step
succeeds and the iteration proceeds with the body. -/
lemma try_body_200 (body : JValue) (d : Bool) (st : LoopState) :
    try_body (.response 200 body) d st =
      if body.truthy then
        match check_response body with
        | .error e => Except.error (st.sendState, e)
        | .ok homeworks =>
          match process_homeworks d st.sendState homeworks with
          | .error (sendSt, e) => Except.error (sendSt, e)
          | .ok sendSt =>
            Except.ok { timestamp := body.dictGet "current_date" st.timestamp,
                        sendState := sendSt }
      else Except.ok st := rfl

/-- Reduction of `try_body` on a non-200 outcome: the `ValueError` raised
by `get_api_answer` escapes to the iteration boundary before anything else
happens. -/
lemma try_body_non200 (status_code : Nat) (body : JValue) (d : Bool) (st : LoopState)
    (h : status_code ≠ 200) :
    ∃ m, try_body (.response status_code body) d st
      = Except.error (st.sendState, .valueError m) := by
  simp only [try_body, get_api_answer, if_pos h]
  by_cases h45 : 400 ≤ status_code ∧ status_code < 500
  · rw [if_pos h45]
    exact ⟨_, rfl⟩
  · rw [if_neg h45]
    by_cases h56 : 500 ≤ status_code ∧ status_code < 600
    · rw [if_pos h56]
      exact ⟨_, rfl⟩
    · rw [if_neg h56]
      exact ⟨_, rfl⟩

/-- C6: after every iteration whose `try:` block completes without an
exception, the cursor equals the response's `current_date` value when that
key is present, and is unchanged when it is absent — including the cases
where the response body is not a dict (then the iteration was skipped as
falsy) or the poll was swallowed as `None`. -/
theorem cursor_update_on_success :
    (∀ (status_code : Nat) (fields : List (String × JValue)) (d : Bool) (st st' : LoopState),
      try_body (.response status_code (.jobj fields)) d st = Except.ok st' →
        (∀ v, alist_get fields "current_date" = some v → st'.timestamp = v)
        ∧ (alist_get fields "current_date" = none → st'.timestamp = st.timestamp))
    ∧ (∀ (status_code : Nat) (body : JValue) (d : Bool) (st st' : LoopState),
        (∀ fields, body ≠ .jobj fields) →
        try_body (.response status_code body) d st = Except.ok st' →
          st'.timestamp = st.timestamp)
    ∧ (∀ (msg : String) (d : Bool) (st st' : LoopState),
        try_body (.requestException msg) d st = Except.ok st' →
          st'.timestamp = st.timestamp) := by
  refine ⟨?_, ?_, ?_⟩
  · intro status_code fields d st st' h
    rcases eq_or_ne status_code 200 with h200 | h200
    · subst h200
      rw [try_body_200] at h
      split at h
      · split at h
        · exact Except.noConfusion h
        · split at h
          · exact Except.noConfusion h
          · have hst := Except.ok.inj h
            subst hst
            constructor
            · intro v hv
              simp [JValue.dictGet, hv]
            · intro hn
              simp [JValue.dictGet, hn]
      · have hst := Except.ok.inj h
        subst hst
        rename_i hFalsy
        cases fields with
        | nil =>
          exact ⟨fun v hv => by simp [alist_get] at hv, fun _ => rfl⟩
        | cons kv rest =>
          exact absurd rfl hFalsy
    · obtain ⟨m, hm⟩ := try_body_non200 status_code (.jobj fields) d st h200
      rw [hm] at h
      exact Except.noConfusion h
  · intro status_code body d st st' hBody h
    rcases eq_or_ne status_code 200 with h200 | h200
    · subst h200
      rw [try_body_200] at h
      split at h
      · split at h
        · exact Except.noConfusion h
        · rename_i homeworks hCheck
          exfalso
          cases body with
          | jobj fields => exact hBody fields rfl
          | jnull => simp [check_response] at hCheck
          | jbool b => simp [check_response] at hCheck
          | jnum n => simp [check_response] at hCheck
          | jstr s => simp [check_response] at hCheck
          | jarr elems => simp [check_response] at hCheck
      · have hst := Except.ok.inj h
        subst hst
        rfl
    · obtain ⟨m, hm⟩ := try_body_non200 status_code body d st h200
      rw [hm] at h
      exact Except.noConfusion h
  · intro msg d st st' h
    have hst : st = st' := Except.ok.inj h
    subst hst
    rfl

/-- C6 witness: the end-to-end scenario — a response whose `current_date`
is 1000 moves the cursor to 1000 — evaluated through the theorem. -/
theorem cursor_update_on_success_w :
    (LoopState.mk (JValue.jnum 1000) initial_state.sendState).timestamp = JValue.jnum 1000 :=
  (cursor_update_on_success.1 200 [("homeworks", .jarr []), ("current_date", .jnum 1000)]
      false initial_state (LoopState.mk (JValue.jnum 1000) initial_state.sendState) rfl).1
    (JValue.jnum 1000) rfl

/-- C8: when any of the three credentials is absent, `main` fails before
the first loop iteration — whatever fetch outcomes would have followed —
with the diagnostic naming exactly the missing credentials; the modelled
`Except.error` is the uncaught `ValueError`, which ends the process with a
non-zero exit code. -/
theorem missing_credentials_fatal :
    ∀ (practicum_token telegram_token telegram_chat_id : Option String),
      (practicum_token = none ∨ telegram_token = none ∨ telegram_chat_id = none) →
      ∀ (outcomes : List FetchOutcome) (delivery_fails : Bool),
        main_run practicum_token telegram_token telegram_chat_id outcomes delivery_fails
          = Except.error ("Отсутствуют переменные окружения: "
              ++ String.intercalate ", "
                  (missing_tokens practicum_token telegram_token telegram_chat_id))
        ∧ missing_tokens practicum_token telegram_token telegram_chat_id ≠ []
        ∧ ("PRACTICUM_TOKEN"
              ∈ missing_tokens practicum_token telegram_token telegram_chat_id
            ↔ practicum_token = none)
        ∧ ("TELEGRAM_TOKEN"
              ∈ missing_tokens practicum_token telegram_token telegram_chat_id
            ↔ telegram_token = none)
        ∧ ("TELEGRAM_CHAT_ID"
              ∈ missing_tokens practicum_token telegram_token telegram_chat_id
            ↔ telegram_chat_id = none) := by
  intro p t c h outcomes d
  cases p <;> cases t <;> cases c <;>
    simp_all [main_run, check_tokens, missing_tokens]

/-- C8 witness: a run with only the Practicum token missing, evaluated
through the theorem. -/
theorem missing_credentials_fatal_w :
    main_run none (some "tg-token") (some "chat-id") [] false
      = Except.error ("Отсутствуют переменные окружения: "
          ++ String.intercalate ", " (missing_tokens none (some "tg-token") (some "chat-id"))) :=
  (missing_credentials_fatal none (some "tg-token") (some "chat-id") (Or.inl rfl) [] false).1

/-- C9 (counterexample): the cursor `main` starts with is the fixed
constant 1705755600, so at a process start whose wall clock reads
1705755601 it differs from the claim's wall-clock initialisation. -/
theorem initial_cursor_not_wall_clock :
    initial_state.timestamp = JValue.jnum 1705755600
    ∧ initial_state.timestamp ≠ spec_initial_cursor 1705755601 := by
  constructor
  · rfl
  · intro h
    simp [initial_state, spec_initial_cursor, TIME_POINT] at h

/-- C9 (amended): at startup the poll cursor is initialised to the fixed
constant `TIME_POINT = 1705755600`, independently of the wall clock: at
every start moment whose clock differs from that constant, the cursor and
the wall clock disagree. -/
theorem initial_cursor_is_constant :
    ∀ (startClock : Int),
      initial_state.timestamp = JValue.jnum TIME_POINT
      ∧ (startClock ≠ TIME_POINT →
          initial_state.timestamp ≠ spec_initial_cursor startClock) := by
  intro startClock
  refine ⟨rfl, fun hne h => hne ?_⟩
  simp [initial_state, spec_initial_cursor] at h
  exact h.symm

/-- C9 witness: the theorem evaluated at a start clock of 0 (the epoch). -/
theorem initial_cursor_is_constant_w :
    initial_state.timestamp ≠ spec_initial_cursor 0 :=
  (initial_cursor_is_constant 0).2 (by decide)

/-- C10: whenever the poll result is falsy — `None` after a swallowed
connection failure, or an HTTP-200 body that is falsy as data such as the
empty dict — the iteration raises nothing, sends nothing, and leaves the
whole state (cursor included) unchanged. -/
theorem falsy_response_skips_iteration :
    ∀ (delivery_fails : Bool) (st : LoopState),
      (∀ msg, try_body (.requestException msg) delivery_fails st = Except.ok st
        ∧ iteration (.requestException msg) delivery_fails st = st)
      ∧ (∀ body, body.truthy = false →
          try_body (.response 200 body) delivery_fails st = Except.ok st
          ∧ iteration (.response 200 body) delivery_fails st = st) := by
  intro d st
  constructor
  · intro msg
    exact ⟨rfl, rfl⟩
  · intro body hb
    have h1 : try_body (.response 200 body) d st = Except.ok st := by
      simp [try_body, get_api_answer, hb]
    exact ⟨h1, by simp [iteration, h1]⟩

/-- C10 witness: the empty-dict body evaluated through the theorem. -/
theorem falsy_response_skips_iteration_w :
    iteration (.response 200 (.jobj [])) false initial_state = initial_state :=
  ((falsy_response_skips_iteration false initial_state).2 (.jobj []) rfl).2

end HomeworkBot
